import Mathlib

/-!
Verification of the plant-identification classifier (src/plant identification/app.py).

Shallow embedding conventions:
* Every numeric feature value in the source is an exact decimal with at most one
  fractional digit (corpus entries such as 2.3; the UI sliders step by 1.0 and
  0.1).  We represent each value x as the integer 10 * x (tenths), so 2.3 cm is
  stored as 23 and the stem codes 0/1/2 become 0/10/20.  All comparisons in the
  source are order comparisons within one feature, which this scaling preserves
  exactly.
* The tree inducer, the inference over the fitted tree and the rule renderer are
  provided by scikit-learn (DecisionTreeClassifier.fit / .predict, export_text),
  whose code is not part of this repository; those parts are modelled from the
  spec (sections 4.2, 4.3, 4.4) and are marked "Modelled from the spec" below.
  The corpus, STEM_MAP, train_model and classify_plant are translated from
  app.py.
* Gini impurities are exact rationals; we compute with unreduced fractions
  (integer numerator over positive denominator) so that the kernel can evaluate
  the training computation.
-/

namespace PlantID

/-- Feature values in tenths: the source value x is stored as the integer 10*x. -/
abbrev Val := Int

/-- Feature vector of a specimen: height, leaf width, stem code (all in tenths). -/
structure Vec where
  height : Val
  width : Val
  stem : Val
deriving DecidableEq, Repr

/-- Component access by feature index, matching the column order of the corpus
rows [height, leaf_width, stem_code]. -/
def Vec.get (v : Vec) (i : Fin 3) : Val :=
  if i.val = 0 then v.height else if i.val = 1 then v.width else v.stem

/-- Decision tree: a leaf holds a species label; an internal node holds a
feature index, a threshold, and two subtrees (go left iff value <= threshold). -/
inductive Tree where
  | leaf (label : String)
  | node (feature : Fin 3) (threshold : Val) (left : Tree) (right : Tree)
deriving DecidableEq, Repr

/-- Number of edges on the longest root-to-leaf path. -/
def Tree.depth : Tree → Nat
  | .leaf _ => 0
  | .node _ _ l r => 1 + max l.depth r.depth

/-- All subtrees of a tree, the tree itself included. -/
def Tree.subtrees : Tree → List Tree
  | .leaf l => [.leaf l]
  | .node i t L R => .node i t L R :: (L.subtrees ++ R.subtrees)

/-- Exact fraction (numerator over denominator), kept unreduced.  Every
denominator built below is positive, so the cross-multiplication order test
is the rational order. -/
structure Frac where
  num : Int
  den : Int
deriving DecidableEq, Repr

def Frac.ofInt (n : Int) : Frac := ⟨n, 1⟩

def Frac.add (a b : Frac) : Frac := ⟨a.num * b.den + b.num * a.den, a.den * b.den⟩

def Frac.sub (a b : Frac) : Frac := ⟨a.num * b.den - b.num * a.den, a.den * b.den⟩

def Frac.mul (a b : Frac) : Frac := ⟨a.num * b.num, a.den * b.den⟩

def Frac.div (a b : Frac) : Frac := ⟨a.num * b.den, a.den * b.num⟩

/-- Strict order by cross multiplication (valid for positive denominators). -/
def Frac.lt (a b : Frac) : Bool := decide (a.num * b.den < b.num * a.den)

/-- Labelled corpus: ordered list of (feature vector, species label) samples. -/
abbrev Corpus := List (Vec × String)

def labelsOf (S : Corpus) : List String := S.map Prod.snd

/-- Number of samples of S carrying the given label. -/
def labelCount (S : Corpus) (l : String) : Nat := (labelsOf S).count l

/-- Distinct labels of S in first-occurrence (corpus) order. -/
def distinctLabels (S : Corpus) : List String :=
  (labelsOf S).foldl (fun acc l => if l ∈ acc then acc else acc ++ [l]) []

/-- Modelled from the spec (4.2, the formula sklearn fit minimizes):
Gini impurity of a sample set, impurity(S) = 1 - sum over labels of
(count(label,S)/|S|)^2.  On the empty set the sum is empty and the value is 1. -/
def gini (S : Corpus) : Frac :=
  Frac.sub (Frac.ofInt 1)
    (((distinctLabels S).map (fun l =>
        let q := Frac.div (Frac.ofInt (labelCount S l)) (Frac.ofInt S.length)
        Frac.mul q q)).foldl Frac.add (Frac.ofInt 0))

/-- Partition of S by the split rule: left iff feature i is <= threshold t. -/
def splitLE (i : Fin 3) (t : Val) (S : Corpus) : Corpus × Corpus :=
  (S.filter (fun s => decide (s.1.get i ≤ t)),
   S.filter (fun s => decide (¬ s.1.get i ≤ t)))

/-- Modelled from the spec (4.2): weighted split impurity
(|S_left|/|S|) * impurity(S_left) + (|S_right|/|S|) * impurity(S_right). -/
def weightedGini (i : Fin 3) (t : Val) (S : Corpus) : Frac :=
  let p := splitLE i t S
  Frac.add
    (Frac.mul (Frac.div (Frac.ofInt p.1.length) (Frac.ofInt S.length)) (gini p.1))
    (Frac.mul (Frac.div (Frac.ofInt p.2.length) (Frac.ofInt S.length)) (gini p.2))

/-- First-occurrence deduplication. -/
def firstDedup (l : List Val) : List Val :=
  l.foldl (fun acc x => if x ∈ acc then acc else acc ++ [x]) []

/-- Modelled from the spec (4.2): candidate splits are each unique value of each
feature as a threshold, enumerated by ascending feature index and, within a
feature, ascending threshold. -/
def candidateSplits (S : Corpus) : List (Fin 3 × Val) :=
  (List.finRange 3).flatMap (fun i =>
    ((firstDedup (S.map (fun s => s.1.get i))).insertionSort (· ≤ ·)).map
      (fun t => (i, t)))

/-- Modelled from the spec (4.2): the candidate split minimizing the weighted
Gini impurity; ties between equally good splits are broken by preferring the
lower feature index, then the lower threshold (candidates are scanned in that
order and only a strictly better split replaces the current best). -/
def bestSplit (S : Corpus) : Option (Fin 3 × Val) :=
  (candidateSplits S).foldl
    (fun best c =>
      match best with
      | none => some c
      | some b =>
        if Frac.lt (weightedGini c.1 c.2 S) (weightedGini b.1 b.2 S) then some c
        else some b)
    none

/-- Modelled from the spec (4.2): leaf label is the majority label of the
samples reaching the leaf, ties broken by the first-encountered label in corpus
order. -/
def majorityLabel (S : Corpus) : String :=
  match distinctLabels S with
  | [] => ""
  | l :: ls =>
      ls.foldl (fun best c => if labelCount S best < labelCount S c then c else best) l

/-- Modelled from the spec (4.2): CART-style recursive induction.  A leaf is
emitted when the depth budget is exhausted, all samples share one label, or the
best split does not strictly reduce the impurity; otherwise the node splits on
the best candidate and recurses on the two partitions. -/
def build (S : Corpus) : Nat → Tree
  | 0 => .leaf (majorityLabel S)
  | d + 1 =>
    if (distinctLabels S).length ≤ 1 then .leaf (majorityLabel S)
    else
      match bestSplit S with
      | none => .leaf (majorityLabel S)
      | some c =>
        if Frac.lt (weightedGini c.1 c.2 S) (gini S) then
          .node c.1 c.2 (build (splitLE c.1 c.2 S).1 d) (build (splitLE c.1 c.2 S).2 d)
        else .leaf (majorityLabel S)

/-- Training-time errors of the tree inducer (spec 4.2 / 7). -/
inductive TrainError where
  | emptyCorpus
  | invalidDepth
deriving DecidableEq, Repr

/-- Modelled from the spec (4.2): train(corpus, max_depth) fails with
EmptyCorpus on zero samples, with InvalidDepth when max_depth < 1, and
otherwise induces the tree. -/
def train (S : Corpus) (maxDepth : Int) : Except TrainError Tree :=
  if S.length = 0 then .error .emptyCorpus
  else if maxDepth < 1 then .error .invalidDepth
  else .ok (build S maxDepth.toNat)

/-- Stem category encoding from app.py line 127 (values in tenths):
STEM_MAP maps thin to 0, medium to 1, thick to 2; any other token is a failed
dictionary lookup (KeyError), modelled as none. -/
def STEM_MAP (s : String) : Option Val :=
  if s = "thin" then some 0
  else if s = "medium" then some 10
  else if s = "thick" then some 20
  else none

/-- Lavender samples from app.py lines 137-142 (values in tenths). -/
def lavender_samples : Corpus :=
  [(⟨300, 10, 0⟩, "lavender"), (⟨400, 15, 0⟩, "lavender"),
   (⟨600, 20, 0⟩, "lavender"), (⟨500, 23, 0⟩, "lavender")]

/-- Rose samples from app.py lines 147-152 (values in tenths). -/
def rose_samples : Corpus :=
  [(⟨600, 40, 0⟩, "rose"), (⟨800, 50, 10⟩, "rose"),
   (⟨1200, 60, 10⟩, "rose"), (⟨900, 35, 0⟩, "rose")]

/-- Sunflower samples from app.py lines 157-162 (values in tenths). -/
def sunflower_samples : Corpus :=
  [(⟨1800, 100, 10⟩, "sunflower"), (⟨2000, 120, 20⟩, "sunflower"),
   (⟨2200, 80, 10⟩, "sunflower"), (⟨2500, 110, 20⟩, "sunflower")]

/-- Bamboo samples from app.py lines 167-172 (values in tenths). -/
def bamboo_samples : Corpus :=
  [(⟨2200, 30, 20⟩, "bamboo"), (⟨3000, 40, 20⟩, "bamboo"),
   (⟨2600, 25, 20⟩, "bamboo"), (⟨3500, 50, 20⟩, "bamboo")]

/-- The embedded 16-sample training corpus of train_model (app.py 133-177),
in source order: lavender, rose, sunflower, bamboo. -/
def trainingCorpus : Corpus :=
  lavender_samples ++ rose_samples ++ sunflower_samples ++ bamboo_samples

/-- Embedding of train_model (app.py 132-181): fit a depth-4 decision tree on
the embedded corpus.  The sklearn fit is modelled from the spec by build. -/
def train_model : Tree := build trainingCorpus 4

/-- The module-level trained model (app.py line 183). -/
def model : Tree := train_model

/-- Direction taken at an internal node. -/
inductive Dir where
  | left
  | right
deriving DecidableEq, Repr

/-- Modelled from the spec (4.3, sklearn predict): traverse from the root,
descend left iff value at the node's feature is <= the threshold, recording the
(feature, threshold, direction) path; return the leaf's label and the path. -/
def predict : Tree → Vec → String × List (Fin 3 × Val × Dir)
  | .leaf l, _ => (l, [])
  | .node i t L R, v =>
    if v.get i ≤ t then
      ((predict L v).1, (i, t, Dir.left) :: (predict L v).2)
    else
      ((predict R v).1, (i, t, Dir.right) :: (predict R v).2)

/-- Indentation used by the rule renderer. -/
def indentText (d : Nat) : String := String.join (List.replicate d "|   ")

/-- Modelled from the spec (4.4, sklearn export_text): deterministic pre-order
rendering of every split condition and leaf label, indentation-nested, using
the supplied feature names. -/
def renderTree (names : List String) : Tree → Nat → String
  | .leaf l, d => indentText d ++ "class: " ++ l ++ "\n"
  | .node i t L R, d =>
      indentText d ++ names.getD i.val "" ++ " <= " ++ toString t ++ "\n"
        ++ renderTree names L (d + 1)
        ++ indentText d ++ names.getD i.val "" ++ " >  " ++ toString t ++ "\n"
        ++ renderTree names R (d + 1)

/-- Modelled from the spec (4.4): render the whole tree with feature names. -/
def export_text (t : Tree) (names : List String) : String := renderTree names t 0

/-- Feature names passed to export_text (app.py line 191). -/
def feature_names : List String := ["height_cm", "leaf_width_cm", "stem_quality_code"]

/-- Embedding of classify_plant (app.py 185-193): encode the stem category (a
failed lookup yields none and no classification), predict with the trained
model, and render the whole tree's rules. -/
def classify_plant (height_cm width_cm : Val) (stem_quality : String) :
    Option (String × String) :=
  match STEM_MAP stem_quality with
  | none => none
  | some code =>
      some ((predict model ⟨height_cm, width_cm, code⟩).1,
            export_text model feature_names)

/-- Keys of the PLANT_DB knowledge base (app.py 33-125), in source order. -/
def PLANT_DB_keys : List String := ["rose", "sunflower", "lavender", "bamboo"]

/-- Routes t v l holds when the split semantics (left iff value <= threshold)
can take vector v from the root of t to a leaf labelled l. -/
inductive Routes : Tree → Vec → String → Prop where
  | leaf (l : String) (v : Vec) : Routes (.leaf l) v l
  | left {i t L R v l} : v.get i ≤ t → Routes L v l → Routes (.node i t L R) v l
  | right {i t L R v l} : ¬ v.get i ≤ t → Routes R v l → Routes (.node i t L R) v l

/-- Left child of the induced root: splits lavender from rose on leaf width
at 2.3 cm. -/
def lavRoseNode : Tree := .node 1 23 (.leaf "lavender") (.leaf "rose")

/-- Right child of the induced root: splits bamboo from sunflower on leaf width
at 5.0 cm. -/
def bamSunNode : Tree := .node 1 50 (.leaf "bamboo") (.leaf "sunflower")

/-- The concrete tree induced from the embedded corpus: root split on height at
120.0 cm, then the two leaf-width splits. -/
def rootNode : Tree := .node 0 1200 lavRoseNode bamSunNode

/-- Evaluation of the induction on the embedded corpus, shared by the proofs
below. -/
theorem model_eq : model = rootNode := by decide

/-- Helper: traversal always reaches a leaf whose label predict returns. -/
theorem routes_predict (t : Tree) (v : Vec) : Routes t v (predict t v).1 := by
  induction t with
  | leaf l => exact Routes.leaf l v
  | node i th L R ihL ihR =>
    by_cases h : v.get i ≤ th
    · simpa [predict, h] using Routes.left h ihL
    · simpa [predict, h] using Routes.right h ihR

/-- Helper: at most one leaf is reachable for a given vector. -/
theorem routes_unique {t : Tree} {v : Vec} {l1 l2 : String}
    (h1 : Routes t v l1) : Routes t v l2 → l1 = l2 := by
  induction h1 with
  | leaf lab w =>
    intro h2
    cases h2
    rfl
  | left hc hr ih =>
    intro h2
    cases h2 with
    | left hc2 hr2 => exact ih hr2
    | right hc2 hr2 => exact absurd hc hc2
  | right hc hr ih =>
    intro h2
    cases h2 with
    | left hc2 hr2 => exact absurd hc2 hc
    | right hc2 hr2 => exact ih hr2

/-- Helper: the trained model only ever predicts one of the four corpus
labels. -/
theorem predict_model_mem (v : Vec) : (predict model v).1 ∈ PLANT_DB_keys := by
  rw [model_eq]
  by_cases h0 : v.get 0 ≤ 1200 <;> by_cases h1 : v.get 1 ≤ 23 <;>
    by_cases h2 : v.get 1 ≤ 50 <;>
      simp [rootNode, lavRoseNode, bamSunNode, predict, h0, h1, h2, PLANT_DB_keys]

/-- Helper: the rules component of any successful classification is the
rendering of the whole trained tree. -/
theorem classify_rules {hc wc : Val} {s : String} {out : String × String}
    (h : classify_plant hc wc s = some out) :
    out.2 = export_text model feature_names := by
  unfold classify_plant at h
  cases hmap : STEM_MAP s with
  | none => rw [hmap] at h; cases h
  | some code =>
    rw [hmap] at h
    have h2 := Option.some.inj h
    rw [← h2]

/-- C1: Zero training error — every sample of the embedded 16-sample corpus is
classified back to its own label by the tree trained by train_model. -/
theorem zero_training_error :
    ∀ s ∈ trainingCorpus, (predict model s.1).1 = s.2 := by
  have hall : trainingCorpus.all (fun s => decide ((predict model s.1).1 = s.2)) = true := by
    decide
  intro s hs
  exact of_decide_eq_true (List.all_eq_true.mp hall s hs)

/-- Witness for C1 at the corpus sample (30 cm, 1.0 cm, thin, lavender). -/
theorem zero_training_error_witness :
    ((⟨300, 10, 0⟩, "lavender") : Vec × String) ∈ trainingCorpus ∧
      (predict model ((⟨300, 10, 0⟩, "lavender") : Vec × String).1).1 = "lavender" :=
  ⟨by decide, zero_training_error (⟨300, 10, 0⟩, "lavender") (by decide)⟩

/-- C2: End-to-end classification — (300, 4.0, thick) is bamboo,
(40, 1.5, thin) is lavender, (90, 3.5, thin) is rose, and (200, 12.0, thick)
is sunflower. -/
theorem end_to_end_queries :
    (classify_plant 3000 40 "thick").map Prod.fst = some "bamboo" ∧
      (classify_plant 400 15 "thin").map Prod.fst = some "lavender" ∧
      (classify_plant 900 35 "thin").map Prod.fst = some "rose" ∧
      (classify_plant 2000 120 "thick").map Prod.fst = some "sunflower" := by
  decide

/-- C3: Invalid stem category — any stem token other than thin, medium, thick
makes classify_plant fail with no partial result. -/
theorem invalid_stem_rejected :
    ∀ (hc wc : Val) (s : String), s ≠ "thin" → s ≠ "medium" → s ≠ "thick" →
      classify_plant hc wc s = none := by
  intro hc wc s h1 h2 h3
  simp [classify_plant, STEM_MAP, h1, h2, h3]

/-- Witness for C3 at (100.0 cm, 5.0 cm, woody). -/
theorem invalid_stem_rejected_witness : classify_plant 1000 50 "woody" = none :=
  invalid_stem_rejected 1000 50 "woody" (by decide) (by decide) (by decide)

/-- C4: Training-time failure — train yields EmptyCorpus on a zero-sample
corpus and InvalidDepth when max_depth < 1; no tree is produced either way. -/
theorem train_failure_guards :
    (∀ d : Int, train [] d = .error .emptyCorpus) ∧
      (∀ (S : Corpus) (d : Int), S ≠ [] → d < 1 →
        train S d = .error .invalidDepth) := by
  refine ⟨fun d => rfl, fun S d hS hd => ?_⟩
  unfold train
  rw [if_neg (by simpa using hS), if_pos hd]

/-- Witness for C4: the empty corpus at depth 4, and the lavender samples at
depth 0. -/
theorem train_failure_guards_witness :
    train [] 4 = .error .emptyCorpus ∧
      train lavender_samples 0 = .error .invalidDepth :=
  ⟨train_failure_guards.1 4,
   train_failure_guards.2 lavender_samples 0 (by decide) (by decide)⟩

/-- C5: Boundary semantics — at every internal node of the trained tree, a
vector whose value at the node's feature equals the threshold is routed to the
left child. -/
theorem threshold_routes_left :
    ∀ sub ∈ model.subtrees, ∀ (i : Fin 3) (th : Val) (L R : Tree) (v : Vec),
      sub = .node i th L R → v.get i = th →
      predict sub v = ((predict L v).1, (i, th, Dir.left) :: (predict L v).2) := by
  intro sub _ i th L R v hsub hv
  subst hsub
  simp [predict, hv]

/-- Witness for C5: the model's root node with a vector of height exactly
120.0 cm. -/
theorem threshold_routes_left_witness :
    rootNode ∈ model.subtrees ∧ (⟨1200, 30, 0⟩ : Vec).get 0 = 1200 ∧
      predict rootNode ⟨1200, 30, 0⟩ =
        ((predict lavRoseNode ⟨1200, 30, 0⟩).1,
          (0, 1200, Dir.left) :: (predict lavRoseNode ⟨1200, 30, 0⟩).2) :=
  ⟨by decide, by decide,
    threshold_routes_left rootNode (by decide) 0 1200 lavRoseNode bamSunNode
      ⟨1200, 30, 0⟩ rfl rfl⟩

/-- Helper: the induced tree never exceeds the depth budget. -/
theorem build_depth_le (d : Nat) : ∀ S : Corpus, (build S d).depth ≤ d := by
  induction d with
  | zero => intro S; exact Nat.le_refl 0
  | succ d ih =>
    intro S
    unfold build
    split
    · simp [Tree.depth]
    · split
      · simp [Tree.depth]
      · next c heq =>
          split
          · simp only [Tree.depth]
            have hL := ih (splitLE c.1 c.2 S).1
            have hR := ih (splitLE c.1 c.2 S).2
            have hm := Nat.max_le.mpr ⟨hL, hR⟩
            omega
          · simp [Tree.depth]

/-- C6: Depth invariant — no root-to-leaf path of a tree built with depth
budget d has more than d edges; in particular the trained model (max_depth 4)
has depth at most 4. -/
theorem depth_invariant :
    (∀ (S : Corpus) (d : Nat), (build S d).depth ≤ d) ∧ model.depth ≤ 4 :=
  ⟨fun S d => build_depth_le d S, by decide⟩

/-- C7: Total traversal — for every tree and every vector, inference reaches a
leaf (the routing relation holds of the predicted label) and that leaf is
unique (any routable label equals the predicted one). -/
theorem total_traversal :
    ∀ (t : Tree) (v : Vec), Routes t v (predict t v).1 ∧
      ∀ l : String, Routes t v l → l = (predict t v).1 :=
  fun t v =>
    ⟨routes_predict t v, fun _ h => routes_unique h (routes_predict t v)⟩

/-- Witness for C7: the trained model on the query (40, 1.5, thin), whose
unique reachable leaf is lavender. -/
theorem total_traversal_witness :
    Routes model ⟨400, 15, 0⟩ (predict model ⟨400, 15, 0⟩).1 ∧
      "lavender" = (predict model ⟨400, 15, 0⟩).1 :=
  ⟨(total_traversal model ⟨400, 15, 0⟩).1,
   (total_traversal model ⟨400, 15, 0⟩).2 "lavender"
     (by
        rw [model_eq]
        unfold rootNode lavRoseNode
        exact Routes.left (by decide)
          (Routes.left (by decide) (Routes.leaf "lavender" ⟨400, 15, 0⟩)))⟩

/-- C8: Determinism — two runs of train on the same corpus and depth yield
structurally identical trees, and export_text renders byte-identical text for
them. -/
theorem training_determinism :
    ∀ (S : Corpus) (d : Int) (t1 t2 : Tree),
      train S d = .ok t1 → train S d = .ok t2 →
      t1 = t2 ∧ export_text t1 feature_names = export_text t2 feature_names := by
  intro S d t1 t2 hr1 hr2
  have h : t1 = t2 := Except.ok.inj (hr1.symm.trans hr2)
  exact ⟨h, by rw [h]⟩

/-- Witness for C8: two runs on the embedded corpus at depth 4 both produce
the model. -/
theorem training_determinism_witness :
    model = model ∧
      export_text model feature_names = export_text model feature_names :=
  training_determinism trainingCorpus 4 model model rfl rfl

/-- C9: Label closure — every successful classification returns a label that
is a key of the PLANT_DB knowledge base. -/
theorem label_closure :
    ∀ (hc wc : Val) (s : String) (out : String × String),
      classify_plant hc wc s = some out → out.1 ∈ PLANT_DB_keys := by
  intro hc wc s out h
  unfold classify_plant at h
  cases hmap : STEM_MAP s with
  | none => rw [hmap] at h; cases h
  | some code =>
    rw [hmap] at h
    have h2 := Option.some.inj h
    rw [← h2]
    exact predict_model_mem _

/-- Witness for C9 at the query (80, 5.0, medium), classified as rose. -/
theorem label_closure_witness :
    ((predict model ⟨800, 50, 10⟩).1, export_text model feature_names).1 ∈
      PLANT_DB_keys :=
  label_closure 800 50 "medium"
    ((predict model ⟨800, 50, 10⟩).1, export_text model feature_names) rfl

/-- C10: Query-independent explanation — the rules text of any two successful
classifications is the identical string (the rendering of the whole trained
tree, not a per-query path). -/
theorem explanation_query_independent :
    ∀ (h1 w1 : Val) (s1 : String) (h2 w2 : Val) (s2 : String)
      (o1 o2 : String × String),
      classify_plant h1 w1 s1 = some o1 → classify_plant h2 w2 s2 = some o2 →
      o1.2 = o2.2 := by
  intro h1 w1 s1 h2 w2 s2 o1 o2 hc1 hc2
  rw [classify_rules hc1, classify_rules hc2]

/-- Witness for C10: the thin (40, 1.5) query and the thick (300, 4.0) query
carry the same rules text. -/
theorem explanation_query_independent_witness :
    ((predict model ⟨400, 15, 0⟩).1, export_text model feature_names).2 =
      ((predict model ⟨3000, 40, 20⟩).1, export_text model feature_names).2 :=
  explanation_query_independent 400 15 "thin" 3000 40 "thick"
    ((predict model ⟨400, 15, 0⟩).1, export_text model feature_names)
    ((predict model ⟨3000, 40, 20⟩).1, export_text model feature_names) rfl rfl

end PlantID
